import Mathlib

/-!
Shallow embedding of `src/app.py`, a small Flask application with three
interesting handlers:

* `api_list` (`GET /api`) reads `data.json` and returns its contents when
  they parse to a JSON array;
* `submit` (`POST /submit`) validates a contact form and inserts a document
  into a MongoDB collection;
* `get_mongo_collection` lazily creates a process-wide `MongoClient`.

File-system and network effects are made explicit: the state of the backing
file is a `FileState` argument, the global `mongo_client` is threaded in and
out of the handlers, and the outcome of `insert_one` is an `InsertBehavior`
oracle argument (success, `PyMongoError`, or any other exception).
-/

namespace App

/-- JSON values as produced by Python's `json.load` and `jsonify`.
Numbers are modelled as integers; the handlers never inspect numbers, so the
choice is immaterial. -/
inductive Json where
  | null
  | bool (b : Bool)
  | num (n : Int)
  | str (s : String)
  | arr (elems : List Json)
  | obj (fields : List (String × Json))

/-- Python's `isinstance(data, list)` on a parsed JSON value. -/
def Json.isList : Json → Bool
  | .arr _ => true
  | _ => false

/-- The observable state of the backing file `data.json` at request time:
absent, present but not valid JSON text (so `json.load` raises
`JSONDecodeError`), present and parsing to a JSON value, or failing with
some other read exception. -/
inductive FileState where
  | missing
  | invalidJson
  | content (j : Json)
  | readFailure (msg : String)

/-- An HTTP response carrying a JSON body: the status code and the body.
`jsonify(x)` alone is status 200; `jsonify(x), 500` is status 500. -/
structure ApiResponse where
  status : Nat
  body : Json

/-- Embedding of the handler `api_list` (`GET /api`) from `src/app.py`:
return the empty array if the file is missing; otherwise parse it,
reject non-array values with a 500 error object, map `JSONDecodeError`
to a 500 error object, and any other exception to a 500 with its message. -/
def api_list : FileState → ApiResponse
  | .missing => ⟨200, .arr []⟩
  | .content j =>
      if j.isList then ⟨200, j⟩
      else ⟨500, .obj [("error", .str "backend file does not contain a JSON list")]⟩
  | .invalidJson => ⟨500, .obj [("error", .str "invalid JSON in backend file")]⟩
  | .readFailure m => ⟨500, .obj [("error", .str m)]⟩

/-- Embedding of Python's `str.strip()` with no argument: remove leading
and trailing whitespace from the string. (Python strips Unicode whitespace;
`Char.isWhitespace` covers the ASCII subset, on which all the claims'
inputs live.) -/
def pyStrip (s : String) : String :=
  ⟨((s.data.dropWhile Char.isWhitespace).reverse.dropWhile Char.isWhitespace).reverse⟩

/-- The environment-derived configuration of the app: `MONGO_URI` has no
default (it is `None` when unset), `DB_NAME` and `COLLECTION_NAME` default
to `"mydatabase"` and `"submissions"` at load time. -/
structure Config where
  MONGO_URI : Option String
  DB_NAME : String
  COLLECTION_NAME : String
deriving DecidableEq, Repr

/-- A `MongoClient(uri, serverSelectionTimeoutMS=5000)` object, identified
by its construction arguments. -/
structure MongoClient where
  uri : String
  serverSelectionTimeoutMS : Nat
deriving DecidableEq, Repr

/-- The handle returned by `get_mongo_collection`:
`mongo_client[DB_NAME][COLLECTION_NAME]`. -/
structure Collection where
  client : MongoClient
  db_name : String
  collection_name : String
deriving DecidableEq, Repr

/-- Embedding of `get_mongo_collection` from `src/app.py`. The global
`mongo_client` is passed in and the (possibly updated) global is returned
alongside the collection. When `MONGO_URI` is unset the function raises
`RuntimeError("MONGO_URI is not configured in environment variables.")`,
modelled as `Except.error` carrying the message; the global is untouched
on that path because the check precedes the assignment. -/
def get_mongo_collection (cfg : Config) (mongo_client : Option MongoClient) :
    Except String (Collection × Option MongoClient) :=
  match cfg.MONGO_URI with
  | none => .error "MONGO_URI is not configured in environment variables."
  | some uri =>
    let client : MongoClient :=
      match mongo_client with
      | none => ⟨uri, 5000⟩
      | some c => c
    .ok (⟨client, cfg.DB_NAME, cfg.COLLECTION_NAME⟩, some client)

/-- The parsed form body of a `POST /submit` request: each field is `none`
when absent, so `request.form.get(k, "")` is `(·.getD "")`. -/
structure FormData where
  name : Option String
  email : Option String
  message : Option String
deriving DecidableEq, Repr

/-- The document built by `submit` and handed to `insert_one`. -/
structure Doc where
  name : String
  email : String
  message : String
deriving DecidableEq, Repr

/-- Oracle for the outcome of `collection.insert_one(doc)`: success,
a `PyMongoError` with message, or any other exception with message. -/
inductive InsertBehavior where
  | ok
  | pymongoError (msg : String)
  | unexpectedError (msg : String)
deriving DecidableEq, Repr

/-- The response of the `submit` handler: either `redirect(url_for("success"))`
(status 302, no further payload), or a rendered template with the prefill
values, a status code, and the flashed notice (message, category) if any. -/
inductive SubmitResponse where
  | redirect (location : String) (status : Nat)
  | renderForm (template : String) (name email message : String)
      (status : Nat) (flashed : Option (String × String))
deriving DecidableEq, Repr

/-- Status code of a `SubmitResponse`. -/
def SubmitResponse.statusCode : SubmitResponse → Nat
  | .redirect _ s => s
  | .renderForm _ _ _ _ s _ => s

/-- Full outcome of one `POST /submit` request: the HTTP response, the value
of the global `mongo_client` after the request, and the list of documents
inserted into the datastore during the request. -/
structure SubmitResult where
  response : SubmitResponse
  mongo_client : Option MongoClient
  writes : List Doc
deriving DecidableEq, Repr

/-- Embedding of the handler `submit` (`POST /submit`) from `src/app.py`.
Each field is fetched with default `""` and stripped. Empty `name` or
`email` flashes a notice and re-renders with 400 before any datastore
access; otherwise the collection is obtained and the document inserted,
with `RuntimeError`, `PyMongoError` and generic exceptions each mapped to
a flashed 500 re-render. -/
def submit (cfg : Config) (form : FormData) (mongo_client : Option MongoClient)
    (ins : InsertBehavior) : SubmitResult :=
  let name := pyStrip (form.name.getD "")
  let email := pyStrip (form.email.getD "")
  let message := pyStrip (form.message.getD "")
  if name = "" ∨ email = "" then
    ⟨.renderForm "form.html" name email message 400
        (some ("Name and email are required.", "error")),
      mongo_client, []⟩
  else
    let doc : Doc := ⟨name, email, message⟩
    match get_mongo_collection cfg mongo_client with
    | .error msg =>
        ⟨.renderForm "form.html" name email message 500
            (some ("Server configuration error: " ++ msg, "error")),
          mongo_client, []⟩
    | .ok (_collection, client) =>
        match ins with
        | .ok =>
            ⟨.redirect "/success" 302, client, [doc]⟩
        | .pymongoError pe =>
            ⟨.renderForm "form.html" name email message 500
                (some ("Database error: " ++ pe, "error")),
              client, []⟩
        | .unexpectedError e =>
            ⟨.renderForm "form.html" name email message 500
                (some ("Unexpected error: " ++ e, "error")),
              client, []⟩

end App

namespace App

/-- Stripping the empty string yields the empty string. -/
theorem pyStrip_empty : pyStrip "" = "" := rfl

/-- C4: for every catalog file whose contents parse as a JSON array,
`GET /api` responds with status 200 and a body equal to that array, order
preserved and elements unmodified. -/
theorem api_list_array (xs : List Json) :
    api_list (.content (.arr xs)) = ⟨200, .arr xs⟩ := rfl

/-- C5: when `data.json` does not exist, `GET /api` responds with status 200
and the empty JSON array, not an error. -/
theorem api_list_missing : api_list .missing = ⟨200, .arr []⟩ := rfl

/-- C6: for every catalog file that exists and parses to a JSON value that
is not an array, `GET /api` responds with status 500 and the body
consisting of the single field error / "backend file does not contain a
JSON list". -/
theorem api_list_non_array (j : Json) (h : j.isList = false) :
    api_list (.content j) =
      ⟨500, .obj [("error", .str "backend file does not contain a JSON list")]⟩ := by
  unfold api_list
  simp [h]

/-- Witness for C6 at the concrete non-array value given in the spec
scenario: a JSON object. -/
theorem api_list_non_array_witness :
    Json.isList (.obj [("id", .num 1)]) = false ∧
      api_list (.content (.obj [("id", .num 1)])) =
        ⟨500, .obj [("error", .str "backend file does not contain a JSON list")]⟩ :=
  ⟨rfl, api_list_non_array (.obj [("id", .num 1)]) rfl⟩

/-- C7: for every catalog file that exists but whose contents are not valid
JSON text, `GET /api` responds with status 500 and the body consisting of
the single field error / "invalid JSON in backend file". -/
theorem api_list_invalid_json :
    api_list .invalidJson = ⟨500, .obj [("error", .str "invalid JSON in backend file")]⟩ :=
  rfl

/-- C1: for every `POST /submit` whose name and email are non-empty after
trimming and whose insertion succeeds, the handler inserts exactly the
document built from the three trimmed field values and responds with a 302
redirect to `/success`; the redirect carries no document identifier. -/
theorem submit_valid_ok (cfg : Config) (uri : String) (form : FormData)
    (st : Option MongoClient)
    (hu : cfg.MONGO_URI = some uri)
    (hn : pyStrip (form.name.getD "") ≠ "")
    (he : pyStrip (form.email.getD "") ≠ "") :
    (submit cfg form st .ok).response = .redirect "/success" 302
    ∧ (submit cfg form st .ok).writes =
      [⟨pyStrip (form.name.getD ""), pyStrip (form.email.getD ""),
        pyStrip (form.message.getD "")⟩] := by
  simp [submit, get_mongo_collection, hu, hn, he]

/-- Witness for C1 at the spec scenario: name " Ann ", email "ann@x.com",
message " hi " with a configured URI and a successful insertion. -/
theorem submit_valid_ok_witness :
    (submit ⟨some "mongodb://h", "mydatabase", "submissions"⟩
        ⟨some " Ann ", some "ann@x.com", some " hi "⟩ none .ok).response
      = .redirect "/success" 302
    ∧ (submit ⟨some "mongodb://h", "mydatabase", "submissions"⟩
        ⟨some " Ann ", some "ann@x.com", some " hi "⟩ none .ok).writes
      = [⟨"Ann", "ann@x.com", "hi"⟩] :=
  submit_valid_ok ⟨some "mongodb://h", "mydatabase", "submissions"⟩ "mongodb://h"
    ⟨some " Ann ", some "ann@x.com", some " hi "⟩ none rfl (by decide) (by decide)

/-- C2: for every `POST /submit` where name or email is empty after
trimming, the handler responds with status 400, re-renders the form with
the trimmed submitted values and the flashed error notice, and performs no
datastore write; the global client is also untouched since the datastore
layer is never reached. -/
theorem submit_validation_failure (cfg : Config) (form : FormData)
    (st : Option MongoClient) (ins : InsertBehavior)
    (h : pyStrip (form.name.getD "") = "" ∨ pyStrip (form.email.getD "") = "") :
    submit cfg form st ins =
      ⟨.renderForm "form.html" (pyStrip (form.name.getD ""))
          (pyStrip (form.email.getD "")) (pyStrip (form.message.getD "")) 400
          (some ("Name and email are required.", "error")), st, []⟩ := by
  simp [submit, h]

/-- Witness for C2 at the spec scenario: name "", email "x@y.com",
message "hi". -/
theorem submit_validation_failure_witness :
    submit ⟨none, "mydatabase", "submissions"⟩
        ⟨some "", some "x@y.com", some "hi"⟩ none .ok =
      ⟨.renderForm "form.html" "" "x@y.com" "hi" 400
          (some ("Name and email are required.", "error")), none, []⟩ :=
  submit_validation_failure ⟨none, "mydatabase", "submissions"⟩
    ⟨some "", some "x@y.com", some "hi"⟩ none .ok (Or.inl (by decide))

/-- C3: for every `POST /submit` with non-empty trimmed name and email
while MONGO_URI is unset, get_mongo_collection raises the RuntimeError
carrying the human-readable message that the connection string is not
configured, and the handler responds with status 500, re-renders the form
with the submitted values and the configuration-error notice, and performs
no datastore write. -/
theorem submit_no_mongo_uri (cfg : Config) (form : FormData)
    (st : Option MongoClient) (ins : InsertBehavior)
    (hu : cfg.MONGO_URI = none)
    (hn : pyStrip (form.name.getD "") ≠ "")
    (he : pyStrip (form.email.getD "") ≠ "") :
    submit cfg form st ins =
      ⟨.renderForm "form.html" (pyStrip (form.name.getD ""))
          (pyStrip (form.email.getD "")) (pyStrip (form.message.getD "")) 500
          (some ("Server configuration error: MONGO_URI is not configured in environment variables.",
            "error")), st, []⟩ := by
  simp [submit, get_mongo_collection, hu, hn, he]

/-- Witness for C3: a valid submission with MONGO_URI unset. -/
theorem submit_no_mongo_uri_witness :
    submit ⟨none, "mydatabase", "submissions"⟩
        ⟨some "Ann", some "ann@x.com", some ""⟩ none .ok =
      ⟨.renderForm "form.html" "Ann" "ann@x.com" "" 500
          (some ("Server configuration error: MONGO_URI is not configured in environment variables.",
            "error")), none, []⟩ :=
  submit_no_mongo_uri ⟨none, "mydatabase", "submissions"⟩
    ⟨some "Ann", some "ann@x.com", some ""⟩ none .ok rfl (by decide) (by decide)

/-- C8: the connection handle is a lazily-initialized singleton. With a
configured URI, a call with an uninitialized handle creates the client
from the URI with a 5000 ms server-selection timeout and assigns it to the
shared handle; a call with an initialized handle returns a collection
backed by that same client object and leaves the handle exactly as it was,
never replacing it. -/
theorem get_mongo_collection_singleton (cfg : Config) (uri : String)
    (hu : cfg.MONGO_URI = some uri) :
    get_mongo_collection cfg none =
      .ok (⟨⟨uri, 5000⟩, cfg.DB_NAME, cfg.COLLECTION_NAME⟩, some ⟨uri, 5000⟩)
    ∧ ∀ c : MongoClient, get_mongo_collection cfg (some c) =
      .ok (⟨c, cfg.DB_NAME, cfg.COLLECTION_NAME⟩, some c) := by
  constructor
  · simp [get_mongo_collection, hu]
  · intro c
    simp [get_mongo_collection, hu]

/-- Witness for C8: the first call creates the client, and a second call
with that client installed reuses it unchanged. -/
theorem get_mongo_collection_singleton_witness :
    get_mongo_collection ⟨some "mongodb://h", "mydatabase", "submissions"⟩ none =
      .ok (⟨⟨"mongodb://h", 5000⟩, "mydatabase", "submissions"⟩, some ⟨"mongodb://h", 5000⟩)
    ∧ get_mongo_collection ⟨some "mongodb://h", "mydatabase", "submissions"⟩
        (some ⟨"mongodb://h", 5000⟩) =
      .ok (⟨⟨"mongodb://h", 5000⟩, "mydatabase", "submissions"⟩, some ⟨"mongodb://h", 5000⟩) :=
  ⟨(get_mongo_collection_singleton ⟨some "mongodb://h", "mydatabase", "submissions"⟩
      "mongodb://h" rfl).1,
   (get_mongo_collection_singleton ⟨some "mongodb://h", "mydatabase", "submissions"⟩
      "mongodb://h" rfl).2 ⟨"mongodb://h", 5000⟩⟩

/-- C9: a `POST /submit` omitting a form field behaves exactly as if the
field were present with the empty-string value; in particular an absent
name or email yields the 400 validation failure, and an absent message on
an otherwise valid submission (configured URI, successful insertion)
inserts a document whose message is the empty string. -/
theorem submit_omitted_field_is_empty (cfg : Config) (st : Option MongoClient)
    (ins : InsertBehavior) (n e m : Option String) (uri : String)
    (hu : cfg.MONGO_URI = some uri)
    (hn : pyStrip (n.getD "") ≠ "") (he : pyStrip (e.getD "") ≠ "") :
    submit cfg ⟨none, e, m⟩ st ins = submit cfg ⟨some "", e, m⟩ st ins
    ∧ submit cfg ⟨n, none, m⟩ st ins = submit cfg ⟨n, some "", m⟩ st ins
    ∧ submit cfg ⟨n, e, none⟩ st ins = submit cfg ⟨n, e, some ""⟩ st ins
    ∧ (submit cfg ⟨none, e, m⟩ st ins).response.statusCode = 400
    ∧ (submit cfg ⟨n, none, m⟩ st ins).response.statusCode = 400
    ∧ (submit cfg ⟨n, e, none⟩ st .ok).writes =
        [⟨pyStrip (n.getD ""), pyStrip (e.getD ""), ""⟩] := by
  refine ⟨rfl, rfl, rfl, rfl, ?_, ?_⟩
  · simp [submit, pyStrip_empty, SubmitResponse.statusCode]
  · simp [submit, get_mongo_collection, hu, hn, he, pyStrip_empty]

/-- Witness for C9 at concrete fields: name "Ann", email "e@x",
message "m", configured URI, uninitialized handle, successful insert. -/
theorem submit_omitted_field_is_empty_witness :
    submit ⟨some "mongodb://h", "mydatabase", "submissions"⟩
        ⟨none, some "e@x", some "m"⟩ none .ok
      = submit ⟨some "mongodb://h", "mydatabase", "submissions"⟩
        ⟨some "", some "e@x", some "m"⟩ none .ok
    ∧ submit ⟨some "mongodb://h", "mydatabase", "submissions"⟩
        ⟨some "Ann", none, some "m"⟩ none .ok
      = submit ⟨some "mongodb://h", "mydatabase", "submissions"⟩
        ⟨some "Ann", some "", some "m"⟩ none .ok
    ∧ submit ⟨some "mongodb://h", "mydatabase", "submissions"⟩
        ⟨some "Ann", some "e@x", none⟩ none .ok
      = submit ⟨some "mongodb://h", "mydatabase", "submissions"⟩
        ⟨some "Ann", some "e@x", some ""⟩ none .ok
    ∧ (submit ⟨some "mongodb://h", "mydatabase", "submissions"⟩
        ⟨none, some "e@x", some "m"⟩ none .ok).response.statusCode = 400
    ∧ (submit ⟨some "mongodb://h", "mydatabase", "submissions"⟩
        ⟨some "Ann", none, some "m"⟩ none .ok).response.statusCode = 400
    ∧ (submit ⟨some "mongodb://h", "mydatabase", "submissions"⟩
        ⟨some "Ann", some "e@x", none⟩ none .ok).writes = [⟨"Ann", "e@x", ""⟩] :=
  submit_omitted_field_is_empty ⟨some "mongodb://h", "mydatabase", "submissions"⟩
    none .ok (some "Ann") (some "e@x") (some "m") "mongodb://h" rfl
    (by decide) (by decide)

/-- C10: a `POST /submit` that fails validation leaves the shared
connection handle exactly as it was before the request (in particular an
uninitialized handle stays uninitialized) and triggers no datastore write,
since the datastore layer is never reached on that path. -/
theorem submit_invalid_preserves_handle (cfg : Config) (form : FormData)
    (st : Option MongoClient) (ins : InsertBehavior)
    (h : pyStrip (form.name.getD "") = "" ∨ pyStrip (form.email.getD "") = "") :
    (submit cfg form st ins).mongo_client = st
    ∧ (submit cfg form st ins).writes = [] := by
  simp [submit, h]

/-- Witness for C10: a whitespace-only name with a configured URI and an
uninitialized handle; the handle stays uninitialized and nothing is
written. -/
theorem submit_invalid_preserves_handle_witness :
    (submit ⟨some "mongodb://h", "mydatabase", "submissions"⟩
        ⟨some "  ", some "x@y", some "hi"⟩ none .ok).mongo_client = none
    ∧ (submit ⟨some "mongodb://h", "mydatabase", "submissions"⟩
        ⟨some "  ", some "x@y", some "hi"⟩ none .ok).writes = [] :=
  submit_invalid_preserves_handle ⟨some "mongodb://h", "mydatabase", "submissions"⟩
    ⟨some "  ", some "x@y", some "hi"⟩ none .ok (Or.inl (by decide))

end App
